import Mathlib

/-!
# Verification of the report-delivery pipeline of `server.py`

Shallow embedding of the core of the screenshot/WhatsApp reporting server:
the WPPConnect gateway client (token generation and the two send operations
with their single 401-driven retry), the screenshot retention sweeper, and the
`/api/capture` report composer.  Network I/O and the file system are modelled
by explicit environments; Python exceptions are modelled by `Option`/`Except`
values; Python `float` is modelled by `Rat` (the decimal literals the server
handles are exact rationals; `inf`/`nan` literals and underscore digit
separators are not modelled).
-/

namespace Server

/-- Embeds Python `str.strip()`: drop whitespace from both ends. -/
def pyStrip (s : String) : String :=
  String.mk (((s.data.dropWhile Char.isWhitespace).reverse.dropWhile Char.isWhitespace).reverse)

/-- Numeric value of a list of decimal digit characters (most significant first). -/
def digitsVal (l : List Char) : Nat :=
  l.foldl (fun a c => a * 10 + (c.toNat - 48)) 0

/-- All characters are decimal digits. -/
def allDigits (l : List Char) : Bool :=
  l.all (fun c => c.isDigit)

/-- Embeds Python `int(s)` on a string: optional surrounding whitespace,
optional sign, then at least one decimal digit.  `none` models `ValueError`. -/
def pyInt (s : String) : Option Int :=
  match (pyStrip s).data with
  | [] => none
  | '+' :: rest =>
    if rest ≠ [] ∧ allDigits rest then some (Int.ofNat (digitsVal rest)) else none
  | '-' :: rest =>
    if rest ≠ [] ∧ allDigits rest then some (-(Int.ofNat (digitsVal rest))) else none
  | l =>
    if allDigits l then some (Int.ofNat (digitsVal l)) else none

/-- Split a character list into its maximal leading run of decimal digits and the rest. -/
def takeDigits : List Char → List Char × List Char
  | [] => ([], [])
  | c :: cs =>
    if c.isDigit then
      let p := takeDigits cs
      (c :: p.1, p.2)
    else ([], c :: cs)

/-- Exact value of a parsed Python float literal: the decimal `mant · 10 ^ exp10`.
Keeping the unreduced pair (instead of a normalized `Rat`) makes every operation
kernel-computable; the rational value is recovered by `PyDec.toRat`. -/
structure PyDec where
  mant : Int
  exp10 : Int
  deriving DecidableEq

/-- The rational value of a parsed decimal. -/
def PyDec.toRat (x : PyDec) : Rat :=
  (x.mant : Rat) * (10 : Rat) ^ x.exp10

/-- Decidable sign test used to embed the source's `tap_num < 0` comparison. -/
def PyDec.isNeg (x : PyDec) : Bool :=
  decide (x.mant < 0)

/-- The sign test agrees with the value: `isNeg` holds exactly when the parsed
number is negative. -/
theorem PyDec.isNeg_iff (x : PyDec) : x.isNeg = true ↔ x.toRat < 0 := by
  have hp : (0 : Rat) < (10 : Rat) ^ x.exp10 := zpow_pos (by norm_num) _
  unfold PyDec.isNeg PyDec.toRat
  rw [decide_eq_true_iff]
  constructor
  · intro h
    exact mul_neg_of_neg_of_pos (by exact_mod_cast h) hp
  · intro h
    by_contra hc
    push_neg at hc
    have : (0 : Rat) ≤ (x.mant : Rat) * (10 : Rat) ^ x.exp10 :=
      mul_nonneg (by exact_mod_cast hc) hp.le
    exact absurd h (not_lt.mpr this)

/-- Exponent tail of a Python float literal: optional sign then at least one digit,
nothing after. -/
def pyFloatExp (mant e0 : Int) (r : List Char) : Option PyDec :=
  let p : Int × List Char :=
    match r with
    | '+' :: t => (1, t)
    | '-' :: t => (-1, t)
    | t => (1, t)
  let q := takeDigits p.2
  if q.1 = [] ∨ q.2 ≠ [] then none
  else some ⟨mant, e0 + p.1 * Int.ofNat (digitsVal q.1)⟩

/-- Embeds Python `float(s)`: optional whitespace and sign, digits with an optional
`.` and fractional digits (at least one digit overall), optional `e`/`E` exponent.
`none` models `ValueError`.  (`inf`/`nan` literals and `_` separators are out of
scope; values are kept exact, with no floating-point rounding.) -/
def pyFloat (s : String) : Option PyDec :=
  let t := (pyStrip s).data
  let sp : Bool × List Char :=
    match t with
    | '+' :: r => (false, r)
    | '-' :: r => (true, r)
    | r => (false, r)
  let ipr := takeDigits sp.2
  let fpr : List Char × List Char :=
    match ipr.2 with
    | '.' :: r => takeDigits r
    | r => ([], r)
  if ipr.1 = [] ∧ fpr.1 = [] then none
  else
    let mant : Int := (if sp.1 then -1 else 1) * Int.ofNat (digitsVal (ipr.1 ++ fpr.1))
    let e0 : Int := -(fpr.1.length : Int)
    match fpr.2 with
    | [] => some ⟨mant, e0⟩
    | 'e' :: r => pyFloatExp mant e0 r
    | 'E' :: r => pyFloatExp mant e0 r
    | _ => none

/-- Truthiness of a Python string-or-None value (`None` and `""` are falsy). -/
def pyTruthy : Option String → Bool
  | none => false
  | some s => !s.isEmpty

/-- Python string interpolation of a string-or-None value (`f"...{x}..."`). -/
def pyStrOfOpt : Option String → String
  | none => "None"
  | some s => s

end Server

-- ─── Report Composer (`capture`, server.py lines 244-301) ───

namespace Server

/-- Embeds `get_val` inside `capture`: look the field up in the payload's `data`
map and strip its `value` (an absent field yields the empty string).  The model
takes the `data` map as a function from field name to the raw `value` string. -/
def get_val (data : String → Option String) (name : String) : String :=
  pyStrip ((data name).getD "")

/-- The `active` variable of `capture`: either the computed device count or, on
any integer-parse failure, the raw `DC` string. -/
inductive ActiveVal where
  | num (n : Int)
  | raw (s : String)
  deriving DecidableEq

/-- Python string interpolation of the `active` variable. -/
def ActiveVal.str : ActiveVal → String
  | num n => toString n
  | raw s => s

/-- Embeds server.py lines 269-276: `active = int(DC) - int(F) - int(M)` with `F`
and `M` defaulting to 0 when blank; on any `ValueError` the raw `DC` string. -/
def computeActive (dc f_val m_val : String) : ActiveVal :=
  match pyInt dc, (if f_val = "" then some 0 else pyInt f_val),
        (if m_val = "" then some 0 else pyInt m_val) with
  | some d, some fn, some mn => ActiveVal.num (d - fn - mn)
  | _, _, _ => ActiveVal.raw dc

/-- The fixed caption emitted when `TAP < 0` (server.py line 287). -/
def stoppedCaption : String :=
  "BC BLĐ: Hiện tại 12 TB đang dừng, tốc độ gió thấp."

/-- The templated caption emitted when `TAP ≥ 0` (server.py lines 289-293). -/
def activeCaption (active : ActiveVal) (aws tap : String) : String :=
  "BC BLĐ: Hiện tại " ++ active.str ++ " TB đang hoạt động, tốc độ gió " ++ aws ++
    " m/s, công suất phát " ++ tap ++ " MW."

/-- The evening-energy addendum appended at 22h (server.py line 299). -/
def eveningSuffix (deg : String) : String :=
  " Sản lượng đầu cực đến 22h đạt " ++ deg ++ " MWh."

/-- Embeds server.py lines 296-299: append the evening-energy addendum exactly when
`(current_hour == 22 or force_22h) and deg`. -/
def withEvening (caption deg : String) (force_22h : Bool) (current_hour : Nat) : String :=
  if (current_hour = 22 ∨ force_22h = true) ∧ deg ≠ "" then caption ++ eveningSuffix deg
  else caption

/-- Outcome of the validation-and-caption part of `capture`:
a 400 naming the missing required fields, a 400 for an unparseable `TAP`,
or the final caption together with the `active` value. -/
inductive ComposeResult where
  | missing (fields : List String)
  | invalidTap (tap : String)
  | ok (caption : String) (active : ActiveVal)
  deriving DecidableEq

/-- Embeds server.py lines 244-301 (the pure part of `capture`): extract and strip
`DC`/`AWS`/`TAP`/`F`/`M`/`DEG`, accumulate the missing required fields in the order
DC, AWS, TAP, compute `active`, parse `TAP` as a float, build the caption by the
sign of `TAP`, then apply the 22h addendum rule. -/
def compose (data : String → Option String) (force_22h : Bool) (current_hour : Nat) :
    ComposeResult :=
  let dc := get_val data "DC"
  let aws := get_val data "AWS"
  let tap := get_val data "TAP"
  let f_val := get_val data "F"
  let m_val := get_val data "M"
  let deg := get_val data "DEG"
  let missing :=
    (if dc = "" then ["DC"] else []) ++ (if aws = "" then ["AWS"] else []) ++
      (if tap = "" then ["TAP"] else [])
  if missing ≠ [] then ComposeResult.missing missing
  else
    let active := computeActive dc f_val m_val
    match pyFloat tap with
    | none => ComposeResult.invalidTap tap
    | some tap_num =>
      let caption := if tap_num.isNeg then stoppedCaption else activeCaption active aws tap
      ComposeResult.ok (withEvening caption deg force_22h current_hour) active

end Server

-- ─── WPPConnect gateway client (server.py lines 51-141) ───

namespace Server

/-- Body of one `send-image` / `send-message` request as far as the claims are
concerned: target chat id, group flag, and the caption/message text (the base64
image data carries no claim-relevant information and is elided). -/
structure SendPayload where
  phone : String
  isGroup : Bool
  body : String
  deriving DecidableEq

/-- One network call made by the client, in chronological order: a
`generate-token` call or a send-endpoint call with its payload. -/
inductive NetEvent where
  | gen
  | send (p : SendPayload)
  deriving DecidableEq

/-- Response of one `generate-token` call: HTTP status and the optional `token`
field of the JSON body. -/
structure GenResponse where
  status : Nat
  token : Option String
  deriving DecidableEq

/-- The network environment: the response of the i-th `generate-token` call and
the HTTP status of the i-th send-endpoint call.  `none` models a raised network
or body-parse exception. -/
structure NetEnv where
  genResults : Nat → Option GenResponse
  sendResults : Nat → Option Nat

/-- Chronological log of the network calls made so far. -/
structure NetState where
  events : List NetEvent
  deriving DecidableEq

/-- Number of `generate-token` calls made so far. -/
def NetState.genCount (ns : NetState) : Nat :=
  ns.events.countP (fun e => match e with | NetEvent.gen => true | _ => false)

/-- Number of send-endpoint calls made so far. -/
def NetState.sendCount (ns : NetState) : Nat :=
  ns.events.countP (fun e => match e with | NetEvent.send _ => true | _ => false)

/-- The mutable state of a `WPPConnectClient`: the cached token and the
`Authorization` header (absent in the initial `headers` dict). -/
structure WPPConnectClient where
  token : Option String
  authHeader : Option String
  deriving DecidableEq

/-- Embeds `WPPConnectClient.__init__` (server.py lines 52-57): the token starts
as `None` and the headers carry no `Authorization` entry. -/
def WPPConnectClient.init : WPPConnectClient :=
  { token := none, authHeader := none }

/-- Embeds `WPPConnectClient._generate_token` (server.py lines 59-72): POST the
generate-token endpoint; on status 200 or 201 store the body's `token` field
(unchecked — a missing field stores `None` and the header `"Bearer None"`) and
return `True`; on any other status, or an exception, leave the state unchanged,
log, and return `False`. -/
def generateToken (env : NetEnv) (st : WPPConnectClient) (ns : NetState) :
    WPPConnectClient × NetState × Bool :=
  let i := ns.genCount
  let ns' : NetState := ⟨ns.events ++ [NetEvent.gen]⟩
  match env.genResults i with
  | none => (st, ns', false)
  | some r =>
    if r.status = 200 ∨ r.status = 201 then
      ({ token := r.token, authHeader := some ("Bearer " ++ pyStrOfOpt r.token) }, ns', true)
    else (st, ns', false)

/-- `pat` occurs as a contiguous run somewhere in the list. -/
def containsSubAux (pat : List Char) : List Char → Bool
  | [] => pat.isEmpty
  | c :: cs => pat.isPrefixOf (c :: cs) || containsSubAux pat cs

/-- Embeds the substring test `"@g.us" in phone_number`. -/
def containsSub (s pat : String) : Bool :=
  containsSubAux pat.data s.data

/-- Embeds Python `s.replace(c, '')`: remove every occurrence of the character. -/
def pyRemoveChar (c : Char) : List Char → List Char
  | [] => []
  | x :: xs => if x = c then pyRemoveChar c xs else x :: pyRemoveChar c xs

/-- Embeds server.py lines 79-80 / 118-119: a target containing `@g.us` is a
group chat id used verbatim; otherwise `phone_number.replace('+', '')` is used
with `isGroup = False`. -/
def resolveTarget (phone_number : String) : String × Bool :=
  let is_group := containsSub phone_number "@g.us"
  (if is_group then phone_number else String.mk (pyRemoveChar '+' phone_number.data), is_group)

/-- One POST to a send endpoint: returns the environment's status for the next
send index (`none` = exception) and logs the call with its payload. -/
def sendRequest (env : NetEnv) (ns : NetState) (p : SendPayload) : Option Nat × NetState :=
  (env.sendResults ns.sendCount, ⟨ns.events ++ [NetEvent.send p]⟩)

/-- Embeds `WPPConnectClient.send_image` (server.py lines 74-111): ensure a token
(generate if the cached one is falsy, failing fast if generation fails), resolve
the target, encode the image (`fileReadOk = false` models an `open`/read
exception returning `False`), POST; on a 401 regenerate the token and, only if
that succeeds, retry the same payload once; succeed iff the final response
status is 200 or 201; any exception returns `False`. -/
def send_image (env : NetEnv) (fileReadOk : Bool) (st : WPPConnectClient) (ns : NetState)
    (phone_number : String) (caption : String) : WPPConnectClient × NetState × Bool :=
  let t1 : WPPConnectClient × NetState × Bool :=
    if pyTruthy st.token then (st, ns, true) else generateToken env st ns
  if t1.2.2 = false then (t1.1, t1.2.1, false)
  else
    let st := t1.1
    let ns := t1.2.1
    let rt := resolveTarget phone_number
    if fileReadOk = false then (st, ns, false)
    else
      let payload : SendPayload := ⟨rt.1, rt.2, caption⟩
      let r1 := sendRequest env ns payload
      match r1.1 with
      | none => (st, r1.2, false)
      | some s1 =>
        if s1 = 401 then
          let g := generateToken env st r1.2
          if g.2.2 then
            let r2 := sendRequest env g.2.1 payload
            match r2.1 with
            | none => (g.1, r2.2, false)
            | some s2 => (g.1, r2.2, s2 = 200 || s2 = 201)
          else (g.1, g.2.1, false)
        else (st, r1.2, s1 = 200 || s1 = 201)

/-- Embeds `WPPConnectClient.send_text` (server.py lines 113-141): identical to
`send_image` except there is no image to encode and the payload's text is the
message. -/
def send_text (env : NetEnv) (st : WPPConnectClient) (ns : NetState)
    (phone_number : String) (message : String) : WPPConnectClient × NetState × Bool :=
  let t1 : WPPConnectClient × NetState × Bool :=
    if pyTruthy st.token then (st, ns, true) else generateToken env st ns
  if t1.2.2 = false then (t1.1, t1.2.1, false)
  else
    let st := t1.1
    let ns := t1.2.1
    let rt := resolveTarget phone_number
    let payload : SendPayload := ⟨rt.1, rt.2, message⟩
    let r1 := sendRequest env ns payload
    match r1.1 with
    | none => (st, r1.2, false)
    | some s1 =>
      if s1 = 401 then
        let g := generateToken env st r1.2
        if g.2.2 then
          let r2 := sendRequest env g.2.1 payload
          match r2.1 with
          | none => (g.1, r2.2, false)
          | some s2 => (g.1, r2.2, s2 = 200 || s2 = 201)
        else (g.1, g.2.1, false)
      else (st, r1.2, s1 = 200 || s1 = 201)

/-- Embeds the delivery step of `capture` (server.py lines 304-315): construct a
brand-new `WPPConnectClient` and send the report as an image when a screenshot
exists, else as text. -/
def deliverReport (env : NetEnv) (fileReadOk : Bool) (phone_number : String)
    (screenshot_path : Option String) (caption : String) :
    WPPConnectClient × NetState × Bool :=
  let client := WPPConnectClient.init
  match screenshot_path with
  | some _ => send_image env fileReadOk client ⟨[]⟩ phone_number caption
  | none => send_text env client ⟨[]⟩ phone_number caption

end Server

-- ─── Retention sweeper (`cleanup_old_screenshots`, server.py lines 145-168) ───

namespace Server

/-- A directory entry of the screenshot directory: name, last-modified time in
seconds, and whether it is a regular file. -/
structure FsFile where
  name : String
  mtime : Int
  isFile : Bool
  deriving DecidableEq

/-- The deletion condition of one loop iteration (server.py lines 156-162):
a `.png` regular file whose mtime is strictly older than the cutoff. -/
def shouldDelete (cutoff : Int) (f : FsFile) : Bool :=
  ".png".data.isSuffixOf f.name.data && f.isFile && decide (f.mtime < cutoff)

/-- The deletion loop (server.py lines 155-164) over the directory listing.
`removeFails name = true` models `os.remove` raising for that file; the
exception aborts the loop (the `try` block wraps the whole loop), leaving the
failing file and every later entry untouched.  `Except.error` carries the
surviving files at the abort point, `Except.ok` the survivors and the count. -/
def cleanupLoop (cutoff : Int) (removeFails : String → Bool) :
    List FsFile → Except (List FsFile) (List FsFile × Nat)
  | [] => Except.ok ([], 0)
  | f :: rest =>
    if shouldDelete cutoff f then
      if removeFails f.name then Except.error (f :: rest)
      else
        match cleanupLoop cutoff removeFails rest with
        | Except.ok (s, c) => Except.ok (s, c + 1)
        | Except.error s => Except.error s
    else
      match cleanupLoop cutoff removeFails rest with
      | Except.ok (s, c) => Except.ok (f :: s, c)
      | Except.error s => Except.error (f :: s)

/-- Embeds `cleanup_old_screenshots` (server.py lines 145-168): no-op when
`retention_days` is `None` (falsy) or ≤ 0; otherwise delete the old `.png`
files, with any exception caught by the function-level handler (the sweep
returns normally either way; the `Bool` records whether the handler fired). -/
def cleanup_old_screenshots (now : Int) (retention_days : Option Int)
    (removeFails : String → Bool) (files : List FsFile) : List FsFile × Bool :=
  match retention_days with
  | none => (files, false)
  | some d =>
    if d ≤ 0 then (files, false)
    else
      match cleanupLoop (now - d * 86400) removeFails files with
      | Except.ok (s, _) => (s, false)
      | Except.error s => (s, true)

end Server

-- ─── Helper lemmas and concrete samples ───

namespace Server

/-- The sign test is false exactly when the parsed number is nonnegative. -/
theorem PyDec.not_isNeg_iff (x : PyDec) : x.isNeg = false ↔ 0 ≤ x.toRat := by
  constructor
  · intro h
    refine not_lt.mp fun hc => ?_
    have := (PyDec.isNeg_iff x).mpr hc
    simp [this] at h
  · intro h
    cases hb : x.isNeg
    · rfl
    · exact absurd ((PyDec.isNeg_iff x).mp hb) (not_lt.mpr h)

/-- A sample with `DC` and `TAP` missing (only `AWS` present). -/
def sampleMissing : String → Option String :=
  fun n => if n = "AWS" then some "5.3" else none

/-- A complete sample whose `TAP` does not parse as a float. -/
def sampleBadTap : String → Option String :=
  fun n =>
    if n = "DC" then some "12" else if n = "AWS" then some "5.3"
    else if n = "TAP" then some "abc" else none

/-- The spec's negative-power scenario sample. -/
def sampleNeg : String → Option String :=
  fun n =>
    if n = "DC" then some "12" else if n = "AWS" then some "5.3"
    else if n = "TAP" then some "-2.1" else if n = "F" then some "1"
    else if n = "M" then some "1" else none

/-- The spec's positive-power scenario sample, with `DEG` present. -/
def samplePos : String → Option String :=
  fun n =>
    if n = "DC" then some "12" else if n = "AWS" then some "5.3"
    else if n = "TAP" then some "2.1" else if n = "F" then some "1"
    else if n = "M" then some "1" else if n = "DEG" then some "150" else none

end Server

-- ─── Claims about the Report Composer ───

namespace Server

/-- **C2.** If any of the required fields `DC`, `AWS`, `TAP` resolves to an empty
trimmed string, `compose` returns the missing-fields `ValidationError` naming
exactly the missing fields, accumulated in the order DC, AWS, TAP; a `TAP`
float-parse failure yields the distinct invalid-`TAP` error, and that error can
only arise when all three required fields are non-empty. -/
theorem c2_required_fields (data : String → Option String) (force_22h : Bool) (hour : Nat) :
    (get_val data "DC" = "" ∨ get_val data "AWS" = "" ∨ get_val data "TAP" = "" →
      compose data force_22h hour =
        ComposeResult.missing
          ((if get_val data "DC" = "" then ["DC"] else []) ++
            (if get_val data "AWS" = "" then ["AWS"] else []) ++
            (if get_val data "TAP" = "" then ["TAP"] else []))) ∧
    (get_val data "DC" ≠ "" → get_val data "AWS" ≠ "" → get_val data "TAP" ≠ "" →
      pyFloat (get_val data "TAP") = none →
      compose data force_22h hour = ComposeResult.invalidTap (get_val data "TAP")) ∧
    (∀ e, compose data force_22h hour = ComposeResult.invalidTap e →
      get_val data "DC" ≠ "" ∧ get_val data "AWS" ≠ "" ∧ get_val data "TAP" ≠ "" ∧
        e = get_val data "TAP" ∧ pyFloat (get_val data "TAP") = none) := by
  refine ⟨?_, ?_, ?_⟩
  · intro h
    have hne :
        ((if get_val data "DC" = "" then ["DC"] else []) ++
          (if get_val data "AWS" = "" then ["AWS"] else []) ++
          (if get_val data "TAP" = "" then ["TAP"] else [])) ≠ [] := by
      rcases h with h | h | h <;> simp [h]
    simp only [compose]
    rw [if_pos hne]
  · intro hdc haws htap hparse
    simp [compose, hdc, haws, htap, hparse]
  · intro e he
    by_cases hdc : get_val data "DC" = ""
    · simp [compose, hdc] at he
    by_cases haws : get_val data "AWS" = ""
    · simp [compose, hdc, haws] at he
    by_cases htap : get_val data "TAP" = ""
    · simp [compose, hdc, haws, htap] at he
    cases hp : pyFloat (get_val data "TAP") with
    | none =>
      simp [compose, hdc, haws, htap, hp] at he
      exact ⟨hdc, haws, htap, he.symm, rfl⟩
    | some x => simp [compose, hdc, haws, htap, hp] at he

/-- **C2 witness.** A sample missing `DC` and `TAP` yields exactly those two names
in that order; a complete sample with an unparseable `TAP` yields the distinct
invalid-`TAP` error. -/
theorem c2_witness :
    compose sampleMissing false 10 = ComposeResult.missing ["DC", "TAP"] ∧
    compose sampleBadTap false 10 = ComposeResult.invalidTap "abc" := by
  constructor
  · have h := (c2_required_fields sampleMissing false 10).1 (Or.inl (by decide))
    rw [h]; decide
  · have h :=
      (c2_required_fields sampleBadTap false 10).2.1 (by decide) (by decide) (by decide) (by decide)
    rw [h]; decide

/-- **C3.** For a sample passing validation with `TAP` parsed to a negative value,
the main caption is the fixed stopped message regardless of every other field; for
a nonnegative value it is the templated sentence embedding `active_devices`, `AWS`
and `TAP` verbatim.  The 22h addendum step (`withEvening`, claim C4) is applied to
this main caption afterwards. -/
theorem c3_caption_policy (data : String → Option String) (force_22h : Bool) (hour : Nat)
    (x : PyDec) (hdc : get_val data "DC" ≠ "") (haws : get_val data "AWS" ≠ "")
    (htap : get_val data "TAP" ≠ "") (hparse : pyFloat (get_val data "TAP") = some x) :
    (x.toRat < 0 →
      compose data force_22h hour =
        ComposeResult.ok
          (withEvening "BC BLĐ: Hiện tại 12 TB đang dừng, tốc độ gió thấp."
            (get_val data "DEG") force_22h hour)
          (computeActive (get_val data "DC") (get_val data "F") (get_val data "M"))) ∧
    (0 ≤ x.toRat →
      compose data force_22h hour =
        ComposeResult.ok
          (withEvening
            ("BC BLĐ: Hiện tại " ++
              (computeActive (get_val data "DC") (get_val data "F") (get_val data "M")).str ++
              " TB đang hoạt động, tốc độ gió " ++ get_val data "AWS" ++
              " m/s, công suất phát " ++ get_val data "TAP" ++ " MW.")
            (get_val data "DEG") force_22h hour)
          (computeActive (get_val data "DC") (get_val data "F") (get_val data "M"))) := by
  constructor
  · intro hneg
    have hb : x.isNeg = true := (PyDec.isNeg_iff x).mpr hneg
    simp [compose, hdc, haws, htap, hparse, hb, stoppedCaption]
  · intro hpos
    have hb : x.isNeg = false := (PyDec.not_isNeg_iff x).mpr hpos
    simp [compose, hdc, haws, htap, hparse, hb, activeCaption]

/-- **C3 witness.** The spec's two scenario samples: `TAP = "-2.1"` gives the fixed
stopped caption; `TAP = "2.1"` (same other fields, hour 10, no forcing) gives the
templated caption with `active = 10`, `AWS` and `TAP` verbatim. -/
theorem c3_witness :
    compose sampleNeg false 10 =
      ComposeResult.ok "BC BLĐ: Hiện tại 12 TB đang dừng, tốc độ gió thấp."
        (ActiveVal.num 10) ∧
    compose samplePos false 10 =
      ComposeResult.ok
        "BC BLĐ: Hiện tại 10 TB đang hoạt động, tốc độ gió 5.3 m/s, công suất phát 2.1 MW."
        (ActiveVal.num 10) := by
  constructor
  · have h :=
      (c3_caption_policy sampleNeg false 10 ⟨-21, -1⟩ (by decide) (by decide) (by decide)
            (by decide)).1
        ((PyDec.isNeg_iff ⟨-21, -1⟩).mp (by decide))
    rw [h]; decide
  · have h :=
      (c3_caption_policy samplePos false 10 ⟨21, -1⟩ (by decide) (by decide) (by decide)
            (by decide)).2
        ((PyDec.not_isNeg_iff ⟨21, -1⟩).mp (by decide))
    rw [h]; decide

/-- **C4.** The evening-energy addendum is appended to the caption exactly when
`(hour = 22 ∨ force_22h)` and `DEG` is non-empty; otherwise the caption is left
unmodified (and appending does change the caption); the step is applied after the
main caption in both `TAP` sign branches. -/
theorem c4_evening_addendum (data : String → Option String) (force_22h : Bool) (hour : Nat)
    (x : PyDec) (hdc : get_val data "DC" ≠ "") (haws : get_val data "AWS" ≠ "")
    (htap : get_val data "TAP" ≠ "") (hparse : pyFloat (get_val data "TAP") = some x) :
    (∀ caption deg : String, (hour = 22 ∨ force_22h = true) ∧ deg ≠ "" →
      withEvening caption deg force_22h hour = caption ++ eveningSuffix deg) ∧
    (∀ caption deg : String, ¬((hour = 22 ∨ force_22h = true) ∧ deg ≠ "") →
      withEvening caption deg force_22h hour = caption) ∧
    (∀ caption deg : String, caption ++ eveningSuffix deg ≠ caption) ∧
    compose data force_22h hour =
      ComposeResult.ok
        (withEvening
          (if x.isNeg then stoppedCaption
            else
              activeCaption (computeActive (get_val data "DC") (get_val data "F") (get_val data "M"))
                (get_val data "AWS") (get_val data "TAP"))
          (get_val data "DEG") force_22h hour)
        (computeActive (get_val data "DC") (get_val data "F") (get_val data "M")) := by
  refine ⟨?_, ?_, ?_, ?_⟩
  · intro caption deg h
    simp [withEvening, h]
  · intro caption deg h
    simp [withEvening, h]
  · intro caption deg h
    have hlen := congrArg String.length h
    rw [eveningSuffix, String.length_append, String.length_append, String.length_append] at hlen
    have h5 : (" MWh.").length = 5 := by decide
    omega
  · simp [compose, hdc, haws, htap, hparse]

/-- **C4 witness.** With `DEG = "150"`: at hour 22 the addendum is appended; at
hour 10 without forcing the caption is left unmodified. -/
theorem c4_witness :
    compose samplePos false 22 =
      ComposeResult.ok
        ("BC BLĐ: Hiện tại 10 TB đang hoạt động, tốc độ gió 5.3 m/s, công suất phát 2.1 MW." ++
          " Sản lượng đầu cực đến 22h đạt 150 MWh.")
        (ActiveVal.num 10) ∧
    withEvening "BC" "150" false 10 = "BC" := by
  constructor
  · have h :=
      (c4_evening_addendum samplePos false 22 ⟨21, -1⟩ (by decide) (by decide) (by decide)
          (by decide)).2.2.2
    rw [h]; decide
  · exact
      (c4_evening_addendum samplePos false 10 ⟨21, -1⟩ (by decide) (by decide) (by decide)
          (by decide)).2.1
        "BC" "150" (by simp)

/-- **C5.** `active_devices` is `DC − F − M` when `DC`, `F`, `M` all parse as
integers (`F`, `M` defaulting to 0 when blank); any parse failure degrades it to
the raw `DC` string, without raising, and composition continues: a successful
`compose` always carries exactly this value. -/
theorem c5_active_devices (dc f_val m_val : String) :
    (∀ d fn mn : Int, pyInt dc = some d →
      (if f_val = "" then some 0 else pyInt f_val) = some fn →
      (if m_val = "" then some 0 else pyInt m_val) = some mn →
      computeActive dc f_val m_val = ActiveVal.num (d - fn - mn)) ∧
    (pyInt dc = none ∨ (f_val ≠ "" ∧ pyInt f_val = none) ∨ (m_val ≠ "" ∧ pyInt m_val = none) →
      computeActive dc f_val m_val = ActiveVal.raw dc) ∧
    (∀ (data : String → Option String) (force_22h : Bool) (hour : Nat) c a,
      compose data force_22h hour = ComposeResult.ok c a →
      a = computeActive (get_val data "DC") (get_val data "F") (get_val data "M")) := by
  refine ⟨?_, ?_, ?_⟩
  · intro d fn mn hd hf hm
    simp [computeActive, hd, hf, hm]
  · intro h
    rcases h with h | ⟨hne, h⟩ | ⟨hne, h⟩
    · simp [computeActive, h]
    · cases hd : pyInt dc <;> simp [computeActive, hd, hne, h]
    · cases hd : pyInt dc <;>
        cases hf : (if f_val = "" then some (0 : Int) else pyInt f_val) <;>
          simp [computeActive, hd, hf, hne, h]
  · intro data force_22h hour c a he
    by_cases hdc : get_val data "DC" = ""
    · simp [compose, hdc] at he
    by_cases haws : get_val data "AWS" = ""
    · simp [compose, hdc, haws] at he
    by_cases htap : get_val data "TAP" = ""
    · simp [compose, hdc, haws, htap] at he
    cases hp : pyFloat (get_val data "TAP") with
    | none => simp [compose, hdc, haws, htap, hp] at he
    | some x =>
      simp [compose, hdc, haws, htap, hp] at he
      exact he.2.symm

/-- **C5 witness.** `DC="12"`, `F="1"`, `M="1"` gives `active = 10`; an
unparseable `M` degrades to the raw string `"12"`; `compose` on the positive
scenario sample carries exactly the computed value. -/
theorem c5_witness :
    computeActive "12" "1" "1" = ActiveVal.num 10 ∧
    computeActive "12" "1" "x" = ActiveVal.raw "12" ∧
    ActiveVal.num 10 = computeActive (get_val samplePos "DC") (get_val samplePos "F")
      (get_val samplePos "M") := by
  refine ⟨?_, ?_, ?_⟩
  · exact (c5_active_devices "12" "1" "1").1 12 1 1 (by decide) (by decide) (by decide)
  · exact (c5_active_devices "12" "1" "x").2.1 (Or.inr (Or.inr ⟨by decide, by decide⟩))
  · exact
      (c5_active_devices "12" "1" "1").2.2 samplePos false 10
        "BC BLĐ: Hiện tại 10 TB đang hoạt động, tốc độ gió 5.3 m/s, công suất phát 2.1 MW."
        (ActiveVal.num 10) (by decide)

end Server

-- ─── Claims about the gateway client ───

namespace Server

/-- Removing every occurrence of a character is filtering it out. -/
theorem pyRemoveChar_eq_filter (c : Char) (l : List Char) :
    pyRemoveChar c l = l.filter (fun x => x != c) := by
  induction l with
  | nil => rfl
  | cons x xs ih => by_cases hx : x = c <;> simp [pyRemoveChar, hx, ih]

/-- An environment whose first send call answers `s1`, second `s2`, and whose
token-generation calls always succeed with a fresh token. -/
def twoSendEnv (s1 s2 : Nat) : NetEnv :=
  { genResults := fun _ => some ⟨200, some "tok2"⟩,
    sendResults := fun i => if i = 0 then some s1 else if i = 1 then some s2 else none }

/-- **C1 (amended: success statuses are 200/201, not all of 2xx).**  For both
sends, starting from a client holding a token: a first 401 triggers exactly one
token re-acquisition and exactly one retry of the same payload (two send calls,
one generate-token call in between), succeeding iff the retry returns 200 or
201 — so 401 then 401 fails with exactly two send calls; any first response
other than 401 is terminal with a single send call and no token call, succeeding
iff it is 200 or 201. -/
theorem c1_retry_policy (st : WPPConnectClient) (h : pyTruthy st.token = true)
    (phone cap text : String) (s2 : Nat) :
    ((send_image (twoSendEnv 401 s2) true st ⟨[]⟩ phone cap).2.2 = true ↔
      (s2 = 200 ∨ s2 = 201)) ∧
    (send_image (twoSendEnv 401 s2) true st ⟨[]⟩ phone cap).2.1.events =
      [NetEvent.send ⟨(resolveTarget phone).1, (resolveTarget phone).2, cap⟩, NetEvent.gen,
        NetEvent.send ⟨(resolveTarget phone).1, (resolveTarget phone).2, cap⟩] ∧
    ((send_text (twoSendEnv 401 s2) st ⟨[]⟩ phone text).2.2 = true ↔
      (s2 = 200 ∨ s2 = 201)) ∧
    (send_text (twoSendEnv 401 s2) st ⟨[]⟩ phone text).2.1.events =
      [NetEvent.send ⟨(resolveTarget phone).1, (resolveTarget phone).2, text⟩, NetEvent.gen,
        NetEvent.send ⟨(resolveTarget phone).1, (resolveTarget phone).2, text⟩] ∧
    (∀ s1 : Nat, s1 ≠ 401 →
      ((send_image (twoSendEnv s1 s2) true st ⟨[]⟩ phone cap).2.2 = true ↔
        (s1 = 200 ∨ s1 = 201)) ∧
      (send_image (twoSendEnv s1 s2) true st ⟨[]⟩ phone cap).2.1.events =
        [NetEvent.send ⟨(resolveTarget phone).1, (resolveTarget phone).2, cap⟩] ∧
      ((send_text (twoSendEnv s1 s2) st ⟨[]⟩ phone text).2.2 = true ↔
        (s1 = 200 ∨ s1 = 201)) ∧
      (send_text (twoSendEnv s1 s2) st ⟨[]⟩ phone text).2.1.events =
        [NetEvent.send ⟨(resolveTarget phone).1, (resolveTarget phone).2, text⟩]) := by
  refine ⟨?_, ?_, ?_, ?_, ?_⟩
  · simp [send_image, h, twoSendEnv, sendRequest, generateToken, NetState.sendCount,
      NetState.genCount]
  · simp [send_image, h, twoSendEnv, sendRequest, generateToken, NetState.sendCount,
      NetState.genCount]
  · simp [send_text, h, twoSendEnv, sendRequest, generateToken, NetState.sendCount,
      NetState.genCount]
  · simp [send_text, h, twoSendEnv, sendRequest, generateToken, NetState.sendCount,
      NetState.genCount]
  · intro s1 hs1
    refine ⟨?_, ?_, ?_, ?_⟩ <;>
      simp [send_image, send_text, h, twoSendEnv, sendRequest, generateToken,
        NetState.sendCount, NetState.genCount, hs1]

/-- **C1 witness.** 401 then 200 is overall success; 401 then 401 is overall
failure with exactly two send-endpoint calls; a first 500 is terminal failure
with a single send call. -/
theorem c1_witness :
    (send_text (twoSendEnv 401 200) ⟨some "t", some "Bearer t"⟩ ⟨[]⟩ "84" "hi").2.2 = true ∧
    (send_text (twoSendEnv 401 401) ⟨some "t", some "Bearer t"⟩ ⟨[]⟩ "84" "hi").2.2 = false ∧
    (send_text (twoSendEnv 401 401) ⟨some "t", some "Bearer t"⟩ ⟨[]⟩ "84" "hi").2.1.sendCount =
      2 ∧
    (send_image (twoSendEnv 500 200) true ⟨some "t", some "Bearer t"⟩ ⟨[]⟩ "84" "c").2.2 =
      false ∧
    (send_image (twoSendEnv 500 200) true ⟨some "t", some "Bearer t"⟩ ⟨[]⟩ "84" "c").2.1.events =
      [NetEvent.send ⟨"84", false, "c"⟩] := by
  refine ⟨?_, ?_, ?_, ?_, ?_⟩
  · exact ((c1_retry_policy ⟨some "t", some "Bearer t"⟩ (by decide) "84" "c" "hi" 200).2.2.1).mpr
      (Or.inl rfl)
  · have h := ((c1_retry_policy ⟨some "t", some "Bearer t"⟩ (by decide) "84" "c" "hi" 401).2.2.1)
    cases hb : (send_text (twoSendEnv 401 401) ⟨some "t", some "Bearer t"⟩ ⟨[]⟩ "84" "hi").2.2
    · rfl
    · rcases h.mp hb with h' | h' <;> simp at h'
  · have h := (c1_retry_policy ⟨some "t", some "Bearer t"⟩ (by decide) "84" "c" "hi" 401).2.2.2.1
    rw [NetState.sendCount, h]; decide
  · have h := ((c1_retry_policy ⟨some "t", some "Bearer t"⟩ (by decide) "84" "c" "hi" 200).2.2.2.2
      500 (by decide)).1
    cases hb : (send_image (twoSendEnv 500 200) true ⟨some "t", some "Bearer t"⟩ ⟨[]⟩
        "84" "c").2.2
    · rfl
    · rcases h.mp hb with h' | h' <;> simp at h'
  · have h := ((c1_retry_policy ⟨some "t", some "Bearer t"⟩ (by decide) "84" "c" "hi" 200).2.2.2.2
      500 (by decide)).2.1
    rw [h]; decide

/-- **C1 counterexample.** The claim as stated says a 401 followed by *any* 2xx on
the retry returns true; the code only accepts 200/201: a retry answered 202 (a
2xx status) is reported as failure by both sends. -/
theorem c1_counterexample :
    (200 ≤ 202 ∧ 202 ≤ 299) ∧
    (send_text (twoSendEnv 401 202) ⟨some "t", some "Bearer t"⟩ ⟨[]⟩ "84" "hi").2.2 = false ∧
    (send_image (twoSendEnv 401 202) true ⟨some "t", some "Bearer t"⟩ ⟨[]⟩ "84" "c").2.2 =
      false := by
  decide

/-- **C6 (amended: success statuses are 200/201, and the `token` field is not
validated).**  `_generate_token` reports success exactly when the gateway answers
200 or 201 — regardless of whether the body carries a `token` field, which is
copied unchecked into the client (a missing field stores `None` and the header
`"Bearer None"`); on any other status or a raised exception it reports failure,
leaves the client unchanged, and returns normally to the caller. -/
theorem c6_token_acquisition (env : NetEnv) (st : WPPConnectClient) (ns : NetState) :
    ((generateToken env st ns).2.2 = true ↔
      ∃ r, env.genResults ns.genCount = some r ∧ (r.status = 200 ∨ r.status = 201)) ∧
    (∀ r, env.genResults ns.genCount = some r → r.status = 200 ∨ r.status = 201 →
      (generateToken env st ns).1.token = r.token ∧
      (generateToken env st ns).1.authHeader = some ("Bearer " ++ pyStrOfOpt r.token)) ∧
    ((generateToken env st ns).2.2 = false → (generateToken env st ns).1 = st) ∧
    (generateToken env st ns).2.1 = ⟨ns.events ++ [NetEvent.gen]⟩ := by
  refine ⟨?_, ?_, ?_, ?_⟩
  · cases hr : env.genResults ns.genCount with
    | none => simp [generateToken, hr]
    | some r =>
      by_cases hs : r.status = 200 ∨ r.status = 201 <;> simp [generateToken, hr, hs]
  · intro r hr hs
    simp [generateToken, hr, hs]
  · intro hf
    cases hr : env.genResults ns.genCount with
    | none => simp [generateToken, hr]
    | some r =>
      by_cases hs : r.status = 200 ∨ r.status = 201
      · simp [generateToken, hr, hs] at hf
      · simp [generateToken, hr, hs]
  · cases hr : env.genResults ns.genCount with
    | none => simp [generateToken, hr]
    | some r =>
      by_cases hs : r.status = 200 ∨ r.status = 201 <;> simp [generateToken, hr, hs]

/-- **C6 witness.** A 201 response carrying a token is a success storing that
token; a 500 response is a failure leaving the fresh client unchanged. -/
theorem c6_witness :
    (generateToken ⟨fun _ => some ⟨201, some "tok"⟩, fun _ => none⟩ WPPConnectClient.init
        ⟨[]⟩).2.2 = true ∧
    (generateToken ⟨fun _ => some ⟨201, some "tok"⟩, fun _ => none⟩ WPPConnectClient.init
        ⟨[]⟩).1.token = some "tok" ∧
    (generateToken ⟨fun _ => some ⟨500, some "tok"⟩, fun _ => none⟩ WPPConnectClient.init
        ⟨[]⟩).1 = WPPConnectClient.init := by
  refine ⟨?_, ?_, ?_⟩
  · exact (c6_token_acquisition ⟨fun _ => some ⟨201, some "tok"⟩, fun _ => none⟩
      WPPConnectClient.init ⟨[]⟩).1.mpr ⟨⟨201, some "tok"⟩, rfl, Or.inr rfl⟩
  · exact ((c6_token_acquisition ⟨fun _ => some ⟨201, some "tok"⟩, fun _ => none⟩
      WPPConnectClient.init ⟨[]⟩).2.1 ⟨201, some "tok"⟩ rfl (Or.inr rfl)).1
  · exact (c6_token_acquisition ⟨fun _ => some ⟨500, some "tok"⟩, fun _ => none⟩
      WPPConnectClient.init ⟨[]⟩).2.2.1 (by decide)

/-- **C6 counterexample.** The claim as stated requires a `token` field for
success and any 2xx to succeed; the code reports success on a 200 with no
`token` field (storing `None`), and failure on a 202 that does carry one. -/
theorem c6_counterexample :
    (generateToken ⟨fun _ => some ⟨200, none⟩, fun _ => none⟩ WPPConnectClient.init ⟨[]⟩).2.2 =
      true ∧
    (generateToken ⟨fun _ => some ⟨200, none⟩, fun _ => none⟩ WPPConnectClient.init
        ⟨[]⟩).1.token = none ∧
    (generateToken ⟨fun _ => some ⟨200, none⟩, fun _ => none⟩ WPPConnectClient.init
        ⟨[]⟩).1.authHeader = some "Bearer None" ∧
    (generateToken ⟨fun _ => some ⟨202, some "tok"⟩, fun _ => none⟩ WPPConnectClient.init
        ⟨[]⟩).2.2 = false ∧ (200 ≤ 202 ∧ 202 ≤ 299) := by
  decide

/-- Modelled from the spec: target resolution as the spec words it — only the
*leading* `+` characters of an individual contact id are stripped.  Defined
solely to compare the specified behavior against the code's `resolveTarget`. -/
def stripLeadingPlusOnly (s : String) : String :=
  String.mk (s.data.dropWhile (fun c => c == '+'))

/-- **C9 (amended: every `+` is removed, not only leading ones).**  A target
containing `@g.us` is passed verbatim with `isGroup = true`; any other target is
sent with `isGroup = false` and with *all* `+` characters removed — every
non-`+` character is preserved in order. -/
theorem c9_target_resolution (phone : String) :
    (containsSub phone "@g.us" = true → resolveTarget phone = (phone, true)) ∧
    (containsSub phone "@g.us" = false →
      resolveTarget phone = (String.mk (phone.data.filter (fun c => c != '+')), false)) := by
  constructor
  · intro h
    simp [resolveTarget, h]
  · intro h
    simp [resolveTarget, h, pyRemoveChar_eq_filter]

/-- **C9 witness.** A group id is used verbatim with the group flag; an
individual id loses all its `+` characters, leading or not. -/
theorem c9_witness :
    resolveTarget "+abc@g.us" = ("+abc@g.us", true) ∧
    resolveTarget "++8+4" = ("84", false) := by
  constructor
  · exact (c9_target_resolution "+abc@g.us").1 (by decide)
  · have h := (c9_target_resolution "++8+4").2 (by decide)
    rw [h]; decide

/-- **C9 counterexample.** On `"8+4"` (no group marker) the claim as stated —
only leading `+` stripped, every other character preserved — predicts the chat
id `"8+4"`, but the code sends `"84"`. -/
theorem c9_counterexample :
    resolveTarget "8+4" = ("84", false) ∧ stripLeadingPlusOnly "8+4" = "8+4" ∧
    containsSub "8+4" "@g.us" = false := by
  decide

/-- A fresh client's `send_image` always makes the token-generation call first. -/
theorem send_image_fresh_head (env : NetEnv) (fileReadOk : Bool) (phone caption : String) :
    (send_image env fileReadOk WPPConnectClient.init ⟨[]⟩ phone caption).2.1.events.head? =
      some NetEvent.gen := by
  cases hg : env.genResults 0 with
  | none =>
    simp [send_image, generateToken, sendRequest, WPPConnectClient.init, pyTruthy, NetState.genCount, NetState.sendCount, hg]
  | some r =>
    by_cases hst : r.status = 200 ∨ r.status = 201
    · cases fileReadOk with
      | false =>
        simp [send_image, generateToken, sendRequest, WPPConnectClient.init, pyTruthy, NetState.genCount, NetState.sendCount,
          hg, hst]
      | true =>
        cases hs0 : env.sendResults 0 with
        | none =>
          simp [send_image, generateToken, sendRequest, WPPConnectClient.init, pyTruthy, NetState.genCount, NetState.sendCount,
            hg, hst, hs0]
        | some s1 =>
          by_cases h401 : s1 = 401
          · subst h401
            cases hg1 : env.genResults 1 with
            | none =>
              simp [send_image, generateToken, sendRequest, WPPConnectClient.init, pyTruthy, NetState.genCount,
                NetState.sendCount, hg, hst, hs0, hg1]
            | some r2 =>
              by_cases hst2 : r2.status = 200 ∨ r2.status = 201
              · cases hs1 : env.sendResults 1 with
                | none =>
                  simp [send_image, generateToken, sendRequest, WPPConnectClient.init, pyTruthy, NetState.genCount,
                    NetState.sendCount, hg, hst, hs0, hg1, hst2, hs1]
                | some s2 =>
                  simp [send_image, generateToken, sendRequest, WPPConnectClient.init, pyTruthy, NetState.genCount,
                    NetState.sendCount, hg, hst, hs0, hg1, hst2, hs1]
              · simp [send_image, generateToken, sendRequest, WPPConnectClient.init, pyTruthy, NetState.genCount,
                  NetState.sendCount, hg, hst, hs0, hg1, hst2]
          · simp [send_image, generateToken, sendRequest, WPPConnectClient.init, pyTruthy, NetState.genCount,
              NetState.sendCount, hg, hst, hs0, h401]
    · simp [send_image, generateToken, sendRequest, WPPConnectClient.init, pyTruthy, NetState.genCount, hg, hst]

/-- A fresh client's `send_text` always makes the token-generation call first. -/
theorem send_text_fresh_head (env : NetEnv) (phone message : String) :
    (send_text env WPPConnectClient.init ⟨[]⟩ phone message).2.1.events.head? =
      some NetEvent.gen := by
  cases hg : env.genResults 0 with
  | none =>
    simp [send_text, generateToken, sendRequest, WPPConnectClient.init, pyTruthy, NetState.genCount, NetState.sendCount, hg]
  | some r =>
    by_cases hst : r.status = 200 ∨ r.status = 201
    · cases hs0 : env.sendResults 0 with
      | none =>
        simp [send_text, generateToken, sendRequest, WPPConnectClient.init, pyTruthy, NetState.genCount, NetState.sendCount,
          hg, hst, hs0]
      | some s1 =>
        by_cases h401 : s1 = 401
        · subst h401
          cases hg1 : env.genResults 1 with
          | none =>
            simp [send_text, generateToken, sendRequest, WPPConnectClient.init, pyTruthy, NetState.genCount,
              NetState.sendCount, hg, hst, hs0, hg1]
          | some r2 =>
            by_cases hst2 : r2.status = 200 ∨ r2.status = 201
            · cases hs1 : env.sendResults 1 with
              | none =>
                simp [send_text, generateToken, sendRequest, WPPConnectClient.init, pyTruthy, NetState.genCount,
                  NetState.sendCount, hg, hst, hs0, hg1, hst2, hs1]
              | some s2 =>
                simp [send_text, generateToken, sendRequest, WPPConnectClient.init, pyTruthy, NetState.genCount,
                  NetState.sendCount, hg, hst, hs0, hg1, hst2, hs1]
            · simp [send_text, generateToken, sendRequest, WPPConnectClient.init, pyTruthy, NetState.genCount,
                NetState.sendCount, hg, hst, hs0, hg1, hst2]
        · simp [send_text, generateToken, sendRequest, WPPConnectClient.init, pyTruthy, NetState.genCount,
            NetState.sendCount, hg, hst, hs0, h401]
    · simp [send_text, generateToken, sendRequest, WPPConnectClient.init, pyTruthy, NetState.genCount, hg, hst]

/-- A history whose first call is a token generation counts at least one. -/
theorem genCount_pos_of_head (ns : NetState) (h : ns.events.head? = some NetEvent.gen) :
    1 ≤ ns.genCount := by
  cases hev : ns.events with
  | nil => rw [hev] at h; simp at h
  | cons e t =>
    rw [hev] at h
    simp at h
    subst h
    simp [NetState.genCount, hev, List.countP_cons]

/-- **C10.** Every delivery constructs a brand-new client whose token starts as
`None`, so no token outlives one `/api/capture` event: whatever the environment,
the history of gateway calls of one delivery begins with a token-generation
call — in particular at least one token generation precedes the first send. -/
theorem c10_fresh_client (env : NetEnv) (fileReadOk : Bool) (phone caption : String)
    (screenshot_path : Option String) :
    WPPConnectClient.init.token = none ∧
    (deliverReport env fileReadOk phone screenshot_path caption).2.1.events.head? =
      some NetEvent.gen ∧
    1 ≤ (deliverReport env fileReadOk phone screenshot_path caption).2.1.genCount := by
  have hhead :
      (deliverReport env fileReadOk phone screenshot_path caption).2.1.events.head? =
        some NetEvent.gen := by
    cases screenshot_path with
    | none => simpa [deliverReport] using send_text_fresh_head env phone caption
    | some p => simpa [deliverReport] using send_image_fresh_head env fileReadOk phone caption
  exact ⟨rfl, hhead, genCount_pos_of_head _ hhead⟩

end Server

-- ─── Claims about the retention sweeper ───

namespace Server

/-- With no deletion failures the sweep loop completes, surviving files are
exactly those not due for deletion, and the count is the number deleted. -/
theorem cleanupLoop_total (cutoff : Int) (files : List FsFile) :
    cleanupLoop cutoff (fun _ => false) files =
      Except.ok (files.filter (fun f => !shouldDelete cutoff f),
        (files.filter (fun f => shouldDelete cutoff f)).length) := by
  induction files with
  | nil => rfl
  | cons f rest ih =>
    by_cases h : shouldDelete cutoff f = true <;>
      simp [cleanupLoop, h, ih, List.filter_cons]

/-- **C7.** The sweep is a no-op when `retention_days` is absent, zero or
negative; with a positive retention it deletes exactly the `.png` regular files
strictly older than `now − retention_days` days and keeps everything else
(younger files and wrong extensions included). -/
theorem c7_retention_sweep (now : Int) (files : List FsFile) :
    cleanup_old_screenshots now none (fun _ => false) files = (files, false) ∧
    (∀ d : Int, d ≤ 0 →
      cleanup_old_screenshots now (some d) (fun _ => false) files = (files, false)) ∧
    (∀ d : Int, 0 < d →
      cleanup_old_screenshots now (some d) (fun _ => false) files =
        (files.filter (fun f => !shouldDelete (now - d * 86400) f), false) ∧
      ∀ f : FsFile,
        (f ∈ (cleanup_old_screenshots now (some d) (fun _ => false) files).1 ↔
          f ∈ files ∧ shouldDelete (now - d * 86400) f = false)) ∧
    (∀ (cutoff : Int) (f : FsFile),
      shouldDelete cutoff f = true ↔
        ".png".data.isSuffixOf f.name.data = true ∧ f.isFile = true ∧ f.mtime < cutoff) := by
  refine ⟨rfl, ?_, ?_, ?_⟩
  · intro d hd
    simp [cleanup_old_screenshots, hd]
  · intro d hd
    have hrun :
        cleanup_old_screenshots now (some d) (fun _ => false) files =
          (files.filter (fun f => !shouldDelete (now - d * 86400) f), false) := by
      simp [cleanup_old_screenshots, not_le.mpr hd, cleanupLoop_total]
    refine ⟨hrun, ?_⟩
    intro f
    rw [hrun]
    simp [List.mem_filter]
  · intro cutoff f
    simp [shouldDelete, and_assoc]

/-- **C7 witness.** `retention_days = -1` deletes nothing; with one day of
retention only the old `.png` is deleted: the same-age `.txt` and the
new-enough `.png` survive. -/
theorem c7_witness :
    cleanup_old_screenshots 200000 (some (-1)) (fun _ => false) [⟨"a.png", 0, true⟩] =
      ([⟨"a.png", 0, true⟩], false) ∧
    cleanup_old_screenshots 200000 (some 1) (fun _ => false)
        [⟨"a.png", 0, true⟩, ⟨"b.txt", 0, true⟩, ⟨"c.png", 199999, true⟩] =
      ([⟨"b.txt", 0, true⟩, ⟨"c.png", 199999, true⟩], false) := by
  constructor
  · exact (c7_retention_sweep 200000 [⟨"a.png", 0, true⟩]).2.1 (-1) (by norm_num)
  · have h := ((c7_retention_sweep 200000
        [⟨"a.png", 0, true⟩, ⟨"b.txt", 0, true⟩, ⟨"c.png", 199999, true⟩]).2.2.1 1
        (by norm_num)).1
    rw [h]; decide

/-- A deletion failure aborts the loop: entries before the failing file are
processed normally, the failing file and every later entry survive. -/
theorem cleanupLoop_abort (cutoff : Int) (removeFails : String → Bool)
    (post : List FsFile) (f : FsFile) (hf : shouldDelete cutoff f = true)
    (hrf : removeFails f.name = true) :
    ∀ pre : List FsFile,
      (∀ g ∈ pre, shouldDelete cutoff g = true → removeFails g.name = false) →
      cleanupLoop cutoff removeFails (pre ++ f :: post) =
        Except.error (pre.filter (fun g => !shouldDelete cutoff g) ++ f :: post) := by
  intro pre
  induction pre with
  | nil => intro _; simp [cleanupLoop, hf, hrf]
  | cons g rest ih =>
    intro hpre
    have hrest := ih fun x hx => hpre x (List.mem_cons_of_mem _ hx)
    by_cases hdel : shouldDelete cutoff g = true
    · have hok : removeFails g.name = false := hpre g (List.mem_cons_self _ _) hdel
      simp [cleanupLoop, hdel, hok, hrest, List.filter_cons]
    · simp [cleanupLoop, hdel, hrest, List.filter_cons]

/-- **C8 (amended: the error is caught once around the whole loop, so one
failure aborts the sweep of the remaining files).**  When `os.remove` raises on
one file, the sweep-level handler catches it (the sweep still returns normally
to its caller, with the error logged), but the failing file and every file
listed after it are left unprocessed; only files listed before it were swept. -/
theorem c8_sweep_abort (now d : Int) (hd : 0 < d) (removeFails : String → Bool)
    (pre post : List FsFile) (f : FsFile)
    (hpre : ∀ g ∈ pre, shouldDelete (now - d * 86400) g = true → removeFails g.name = false)
    (hf : shouldDelete (now - d * 86400) f = true)
    (hrf : removeFails f.name = true) :
    cleanup_old_screenshots now (some d) removeFails (pre ++ f :: post) =
      (pre.filter (fun g => !shouldDelete (now - d * 86400) g) ++ f :: post, true) := by
  simp [cleanup_old_screenshots, not_le.mpr hd,
    cleanupLoop_abort (now - d * 86400) removeFails post f hf hrf pre hpre]

/-- **C8 witness.** With a failing deletion of `a.png`, the prior `x.txt` is
kept (wrong extension), and the due-for-deletion `b.png` after the failure
survives; the sweep reports the caught error instead of raising. -/
theorem c8_witness :
    cleanup_old_screenshots 200000 (some 1) (fun n => n == "a.png")
        [⟨"x.txt", 0, true⟩, ⟨"a.png", 0, true⟩, ⟨"b.png", 0, true⟩] =
      ([⟨"x.txt", 0, true⟩, ⟨"a.png", 0, true⟩, ⟨"b.png", 0, true⟩], true) := by
  have h := c8_sweep_abort 200000 1 (by norm_num) (fun n => n == "a.png")
    [⟨"x.txt", 0, true⟩] [⟨"b.png", 0, true⟩] ⟨"a.png", 0, true⟩
    (by intro g hg _; simp at hg; simp [hg]) (by decide) (by decide)
  simp only [List.cons_append, List.nil_append] at h
  rw [h]; decide

/-- **C8 counterexample.** The claim as stated says one deletion failure does not
abort the sweep of the remaining files; here `b.png` is due for deletion, listed
after the failing `a.png`, and survives the sweep. -/
theorem c8_counterexample :
    cleanup_old_screenshots 200000 (some 1) (fun n => n == "a.png")
        [⟨"a.png", 0, true⟩, ⟨"b.png", 0, true⟩] =
      ([⟨"a.png", 0, true⟩, ⟨"b.png", 0, true⟩], true) ∧
    shouldDelete (200000 - 1 * 86400) ⟨"b.png", 0, true⟩ = true := by
  decide

end Server

